import Mathlib

/-!
Verification of the wolfSSH logging module (src/log.c).

The C module keeps process-wide state (enable flag, minimum level, plain and
extended sink pointers) and exposes configuration operations plus two log
entry points.  We embed the state as a structure and each entry point as a
pure function from the state and the call's arguments to the unchanged state
paired with an observation record saying whether the message buffer was
filled and whether (and with what arguments) the installed sink was invoked.

Severity levels and domain tags are C enums held in `int`-typed parameters;
we model them as natural numbers.  Sink function pointers are modelled as
`Option Nat`: `none` is the NULL pointer and `some f` a non-null pointer
identified by `f`.  Variadic formatting is modelled by handing the entry
point the fully rendered text of `(fmt, args)`; the `vsnprintf` write into
the fixed-width stack buffer is the truncation of that text.
-/

/-- Modelled from the spec: the `wolfSSH_LogLevel` enumeration is declared in
wolfssh/log.h, which is not under src/.  The spec lists the recognized values
"INFO, WARN, ERROR, DEBUG, USER, SFTP, SCP, AGENT", ordered by the
enumeration's numeric order, so we assign consecutive codes in that order. -/
def WS_LOG_INFO : Nat := 0

/-- Level code for WARN. -/
def WS_LOG_WARN : Nat := 1

/-- Level code for ERROR. -/
def WS_LOG_ERROR : Nat := 2

/-- Level code for DEBUG. -/
def WS_LOG_DEBUG : Nat := 3

/-- Level code for USER. -/
def WS_LOG_USER : Nat := 4

/-- Level code for SFTP. -/
def WS_LOG_SFTP : Nat := 5

/-- Level code for SCP. -/
def WS_LOG_SCP : Nat := 6

/-- Level code for AGENT. -/
def WS_LOG_AGENT : Nat := 7

/-- Modelled from the spec: the `wolfSSH_LogDomain` enumeration is declared in
wolfssh/log.h, which is not under src/.  The spec names the domains
"general, SFTP, SCP, agent". -/
def WS_LOG_DOMAIN_GENERAL : Nat := 0

/-- Domain code for the SFTP subsystem. -/
def WS_LOG_DOMAIN_SFTP : Nat := 1

/-- Domain code for the SCP subsystem. -/
def WS_LOG_DOMAIN_SCP : Nat := 2

/-- Domain code for the agent subsystem. -/
def WS_LOG_DOMAIN_AGENT : Nat := 3

/-- Default width of the message stack buffer (log.c line 48), overridable at
build time; the entry points below take the effective width `w` as a
parameter. -/
def WOLFSSH_DEFAULT_LOG_WIDTH : Nat := 120

/-- Modelled from the spec: `WVSNPRINTF` is a repo macro (outside src/)
wrapping C `vsnprintf(buf, size, fmt, args)`.  Given the fully rendered text
of `(fmt, args)`, the buffer receives at most `size - 1` characters plus a
NUL terminator; truncation is silent. -/
def WVSNPRINTF (size : Nat) (rendered : String) : String :=
  ⟨rendered.data.take (size - 1)⟩

/-- The switch in `GetOldLevelStr` (log.c lines 132-162): a static string per
recognized severity level, "UNKNOWN" on the default branch. -/
def GetOldLevelStr (level : Nat) : String :=
  if level = WS_LOG_INFO then "INFO"
  else if level = WS_LOG_WARN then "WARNING"
  else if level = WS_LOG_ERROR then "ERROR"
  else if level = WS_LOG_DEBUG then "DEBUG"
  else if level = WS_LOG_USER then "USER"
  else if level = WS_LOG_SFTP then "SFTP"
  else if level = WS_LOG_SCP then "SCP"
  else if level = WS_LOG_AGENT then "AGENT"
  else "UNKNOWN"

/-- Modelled from the spec: `GetLevelStr`, used by the default sinks, is
declared in wolfssh/log.h (not under src/).  Per §4.1 `labelOfLevel` returns
a short uppercase label per recognized severity and "UNKNOWN" otherwise;
scenarios S3/S4 fix DEBUG ↦ "DEBUG", SFTP ↦ "SFTP", ERROR ↦ "ERROR". -/
def GetLevelStr (level : Nat) : String :=
  if level = WS_LOG_INFO then "INFO"
  else if level = WS_LOG_WARN then "WARN"
  else if level = WS_LOG_ERROR then "ERROR"
  else if level = WS_LOG_DEBUG then "DEBUG"
  else if level = WS_LOG_USER then "USER"
  else if level = WS_LOG_SFTP then "SFTP"
  else if level = WS_LOG_SCP then "SCP"
  else if level = WS_LOG_AGENT then "AGENT"
  else "UNKNOWN"

/-- Modelled from the spec: `GetDomainStr`, used by the extended default sink,
is declared in wolfssh/log.h (not under src/).  Per §4.1 `labelOfDomain` has
the same contract over the domain enumeration; scenario S4 fixes the agent
domain's label as "AGENT". -/
def GetDomainStr (domain : Nat) : String :=
  if domain = WS_LOG_DOMAIN_GENERAL then "GENERAL"
  else if domain = WS_LOG_DOMAIN_SFTP then "SFTP"
  else if domain = WS_LOG_DOMAIN_SCP then "SCP"
  else if domain = WS_LOG_DOMAIN_AGENT then "AGENT"
  else "UNKNOWN"

/-- The module's process-wide mutable state (log.c lines 52-63):
`logFunction` and `logFunctionEx` are the sink pointers, `logLevel` the
minimum level, `logEnable` the cooperative enable flag. -/
structure LogState where
  logEnable : Bool
  logLevel : Nat
  logFunction : Option Nat
  logFunctionEx : Option Nat
deriving DecidableEq

/-- Observation of one plain-sink invocation: which sink pointer was called
and the `(level, msgStr)` arguments it received. -/
structure PlainCall where
  sink : Nat
  level : Nat
  msg : String
deriving DecidableEq

/-- Observation of one extended-sink invocation: which sink pointer was
called and the `(level, domain, msgStr)` arguments it received. -/
structure ExCall where
  sink : Nat
  level : Nat
  domain : Nat
  msg : String
deriving DecidableEq

/-- What one call to `wolfSSH_Log` did: `formatted` is the contents written
into the stack buffer (`none` when the call returned before formatting), and
`invoked` is the sink invocation, if any. -/
structure LogResult where
  formatted : Option String
  invoked : Option PlainCall
deriving DecidableEq

/-- What one call to `wolfSSH_Log_ex` did, with the extended sink shape. -/
structure LogResultEx where
  formatted : Option String
  invoked : Option ExCall
deriving DecidableEq

/-- Entry point `wolfSSH_Log_ex` (log.c lines 190-205, DEBUG_WOLFSSH build):
return immediately if `level < logLevel`; otherwise format into the `w`-wide
stack buffer and, if `logFunctionEx` is non-null, call it with
`(level, domain, msgStr)`.  The globals are read, never written, so the
state component of the result is the input state. -/
def wolfSSH_Log_ex (w : Nat) (s : LogState) (level domain : Nat)
    (rendered : String) : LogState × LogResultEx :=
  (s,
    if level < s.logLevel then ⟨none, none⟩
    else
      let msgStr := WVSNPRINTF w rendered
      match s.logFunctionEx with
      | some f => ⟨some msgStr, some ⟨f, level, domain, msgStr⟩⟩
      | none => ⟨some msgStr, none⟩)

/-- Entry point `wolfSSH_Log` (log.c lines 209-223, DEBUG_WOLFSSH build). -/
def wolfSSH_Log (w : Nat) (s : LogState) (level : Nat)
    (rendered : String) : LogState × LogResult :=
  (s,
    if level < s.logLevel then ⟨none, none⟩
    else
      let msgStr := WVSNPRINTF w rendered
      match s.logFunction with
      | some f => ⟨some msgStr, some ⟨f, level, msgStr⟩⟩
      | none => ⟨some msgStr, none⟩)

/-- Configuration operation `wolfSSH_Debugging_ON` (log.c lines 67-72). -/
def wolfSSH_Debugging_ON (s : LogState) : LogState :=
  { s with logEnable := true }

/-- Configuration operation `wolfSSH_Debugging_OFF` (log.c lines 76-81). -/
def wolfSSH_Debugging_OFF (s : LogState) : LogState :=
  { s with logEnable := false }

/-- Configuration operation `wolfSSH_SetLoggingCb` (log.c lines 85-89):
`if (logF) logFunction = logF;` — a null argument leaves the sink alone. -/
def wolfSSH_SetLoggingCb (logF : Option Nat) (s : LogState) : LogState :=
  match logF with
  | some f => { s with logFunction := some f }
  | none => s

/-- Query `wolfSSH_LogEnabled` (log.c lines 92-99, DEBUG_WOLFSSH build). -/
def wolfSSH_LogEnabled (s : LogState) : Bool :=
  s.logEnable

/-- Entry point `wolfSSH_Log_ex` in a build without DEBUG_WOLFSSH
(log.c lines 243-249): every argument is cast to void and nothing happens. -/
def wolfSSH_Log_ex_noDebug (s : LogState) (level domain : Nat)
    (rendered : String) : LogState × LogResultEx :=
  (s, ⟨none, none⟩)

/-- Entry point `wolfSSH_Log` in a build without DEBUG_WOLFSSH
(log.c lines 252-256). -/
def wolfSSH_Log_noDebug (s : LogState) (level : Nat)
    (rendered : String) : LogState × LogResult :=
  (s, ⟨none, none⟩)

/-- C1: a log or logEx call with level strictly below the current minimum
level returns immediately: nothing is formatted and no sink is invoked. -/
theorem log_below_minLevel_returns_immediately
    (w : Nat) (s : LogState) (level domain : Nat) (rendered : String)
    (h : level < s.logLevel) :
    wolfSSH_Log w s level rendered = (s, ⟨none, none⟩) ∧
    wolfSSH_Log_ex w s level domain rendered = (s, ⟨none, none⟩) := by
  unfold wolfSSH_Log wolfSSH_Log_ex
  rw [if_pos h, if_pos h]
  exact ⟨rfl, rfl⟩

/-- Witness for C1 at a concrete filtered-out call. -/
theorem log_below_minLevel_returns_immediately_witness :
    WS_LOG_INFO < (LogState.mk false WS_LOG_WARN (some 1) (some 2)).logLevel ∧
    (wolfSSH_Log 120 (LogState.mk false WS_LOG_WARN (some 1) (some 2))
        WS_LOG_INFO "hello" =
      (LogState.mk false WS_LOG_WARN (some 1) (some 2), ⟨none, none⟩) ∧
    wolfSSH_Log_ex 120 (LogState.mk false WS_LOG_WARN (some 1) (some 2))
        WS_LOG_INFO WS_LOG_DOMAIN_GENERAL "hello" =
      (LogState.mk false WS_LOG_WARN (some 1) (some 2), ⟨none, none⟩)) :=
  ⟨by decide,
   log_below_minLevel_returns_immediately 120
     (LogState.mk false WS_LOG_WARN (some 1) (some 2))
     WS_LOG_INFO WS_LOG_DOMAIN_GENERAL "hello" (by decide)⟩

/-- Helper: the sink invocation performed by one `wolfSSH_Log` call, as a
function of the filter and the installed plain sink. -/
theorem log_invoked_eq (w : Nat) (s : LogState) (level : Nat)
    (rendered : String) :
    ((wolfSSH_Log w s level rendered).2).invoked =
      if level < s.logLevel then none
      else Option.map (fun f => PlainCall.mk f level (WVSNPRINTF w rendered))
        s.logFunction := by
  unfold wolfSSH_Log
  by_cases h : level < s.logLevel
  · simp [h]
  · cases hf : s.logFunction <;> simp [h, hf]

/-- Helper: the sink invocation performed by one `wolfSSH_Log_ex` call. -/
theorem logEx_invoked_eq (w : Nat) (s : LogState) (level domain : Nat)
    (rendered : String) :
    ((wolfSSH_Log_ex w s level domain rendered).2).invoked =
      if level < s.logLevel then none
      else Option.map
        (fun f => ExCall.mk f level domain (WVSNPRINTF w rendered))
        s.logFunctionEx := by
  unfold wolfSSH_Log_ex
  by_cases h : level < s.logLevel
  · simp [h]
  · cases hf : s.logFunctionEx <;> simp [h, hf]

/-- C2: when the rendered message exceeds `w - 1` characters, the message a
sink receives from `wolfSSH_Log` or `wolfSSH_Log_ex` is silently cut to
exactly `w - 1` characters (a prefix of the rendered text); the default
width is 120.  The entry points are total: no error is reported. -/
theorem log_truncates_silently (w : Nat) (s : LogState) (level domain : Nat)
    (rendered : String) (hlen : w - 1 < rendered.length) :
    WOLFSSH_DEFAULT_LOG_WIDTH = 120 ∧
    (∀ c : PlainCall, ((wolfSSH_Log w s level rendered).2).invoked = some c →
      c.msg.length = w - 1 ∧ c.msg.data <+: rendered.data) ∧
    (∀ c : ExCall,
      ((wolfSSH_Log_ex w s level domain rendered).2).invoked = some c →
      c.msg.length = w - 1 ∧ c.msg.data <+: rendered.data) := by
  have hkey : (WVSNPRINTF w rendered).length = w - 1 := by
    show (rendered.data.take (w - 1)).length = w - 1
    rw [List.length_take]
    exact Nat.min_eq_left (Nat.le_of_lt hlen)
  have hpre : (WVSNPRINTF w rendered).data <+: rendered.data := by
    show rendered.data.take (w - 1) <+: rendered.data
    exact List.take_prefix _ _
  refine ⟨rfl, ?_, ?_⟩
  · intro c hc
    rw [log_invoked_eq] at hc
    by_cases h : level < s.logLevel
    · rw [if_pos h] at hc
      exact Option.noConfusion hc
    · rw [if_neg h] at hc
      cases hf : s.logFunction with
      | none => rw [hf] at hc; exact Option.noConfusion hc
      | some f =>
          rw [hf] at hc
          cases Option.some.inj hc
          exact ⟨hkey, hpre⟩
  · intro c hc
    rw [logEx_invoked_eq] at hc
    by_cases h : level < s.logLevel
    · rw [if_pos h] at hc
      exact Option.noConfusion hc
    · rw [if_neg h] at hc
      cases hf : s.logFunctionEx with
      | none => rw [hf] at hc; exact Option.noConfusion hc
      | some f =>
          rw [hf] at hc
          cases Option.some.inj hc
          exact ⟨hkey, hpre⟩

/-- Witness for C2: scenario S6, `w = 16`, a 20-character message. -/
theorem log_truncates_silently_witness :
    16 - 1 < ("0123456789ABCDEFGHIJ" : String).length ∧
    (WOLFSSH_DEFAULT_LOG_WIDTH = 120 ∧
    (∀ c : PlainCall,
      ((wolfSSH_Log 16 (LogState.mk false 0 (some 1) (some 2)) WS_LOG_INFO
        "0123456789ABCDEFGHIJ").2).invoked = some c →
      c.msg.length = 16 - 1 ∧ c.msg.data <+: ("0123456789ABCDEFGHIJ" : String).data) ∧
    (∀ c : ExCall,
      ((wolfSSH_Log_ex 16 (LogState.mk false 0 (some 1) (some 2)) WS_LOG_INFO
        WS_LOG_DOMAIN_GENERAL "0123456789ABCDEFGHIJ").2).invoked = some c →
      c.msg.length = 16 - 1 ∧ c.msg.data <+: ("0123456789ABCDEFGHIJ" : String).data)) :=
  ⟨by decide,
   log_truncates_silently 16 (LogState.mk false 0 (some 1) (some 2))
     WS_LOG_INFO WS_LOG_DOMAIN_GENERAL "0123456789ABCDEFGHIJ" (by decide)⟩

/-- C3: `wolfSSH_SetLoggingCb` with a null pointer leaves the installed sink
unchanged, and a later passing-level call still dispatches to the previously
installed sink; a non-null argument replaces the sink. -/
theorem setLoggingCb_null_guard (s : LogState) (f g w level : Nat)
    (rendered : String)
    (hf : s.logFunction = some f) (hlev : ¬ level < s.logLevel) :
    wolfSSH_SetLoggingCb none s = s ∧
    (wolfSSH_SetLoggingCb (some g) s).logFunction = some g ∧
    ((wolfSSH_Log w (wolfSSH_SetLoggingCb none s) level rendered).2).invoked =
      some (PlainCall.mk f level (WVSNPRINTF w rendered)) := by
  refine ⟨rfl, rfl, ?_⟩
  show ((wolfSSH_Log w s level rendered).2).invoked = _
  rw [log_invoked_eq, if_neg hlev, hf]
  rfl

/-- Witness for C3: scenario S5, install sink 5, then setSink(null), then log. -/
theorem setLoggingCb_null_guard_witness :
    (LogState.mk false WS_LOG_INFO (some 5) none).logFunction = some 5 ∧
    ¬ WS_LOG_INFO < (LogState.mk false WS_LOG_INFO (some 5) none).logLevel ∧
    (wolfSSH_SetLoggingCb none (LogState.mk false WS_LOG_INFO (some 5) none) =
      LogState.mk false WS_LOG_INFO (some 5) none ∧
    (wolfSSH_SetLoggingCb (some 9)
      (LogState.mk false WS_LOG_INFO (some 5) none)).logFunction = some 9 ∧
    ((wolfSSH_Log 120
        (wolfSSH_SetLoggingCb none (LogState.mk false WS_LOG_INFO (some 5) none))
        WS_LOG_INFO "x").2).invoked =
      some (PlainCall.mk 5 WS_LOG_INFO (WVSNPRINTF 120 "x"))) :=
  ⟨by decide, by decide,
   setLoggingCb_null_guard (LogState.mk false WS_LOG_INFO (some 5) none)
     5 9 120 WS_LOG_INFO "x" (by decide) (by decide)⟩

/-- C4: the entry points never consult the enable flag: flipping it with
`wolfSSH_Debugging_ON` / `wolfSSH_Debugging_OFF` (or setting it to any
value) changes nothing about the filtering, formatting and dispatch a
log/logEx call performs. -/
theorem log_independent_of_enable (w : Nat) (s : LogState) (b : Bool)
    (level domain : Nat) (rendered : String) :
    (wolfSSH_Log w (wolfSSH_Debugging_ON s) level rendered).2 =
      (wolfSSH_Log w (wolfSSH_Debugging_OFF s) level rendered).2 ∧
    (wolfSSH_Log_ex w (wolfSSH_Debugging_ON s) level domain rendered).2 =
      (wolfSSH_Log_ex w (wolfSSH_Debugging_OFF s) level domain rendered).2 ∧
    (wolfSSH_Log w { s with logEnable := b } level rendered).2 =
      (wolfSSH_Log w s level rendered).2 ∧
    (wolfSSH_Log_ex w { s with logEnable := b } level domain rendered).2 =
      (wolfSSH_Log_ex w s level domain rendered).2 :=
  ⟨rfl, rfl, rfl, rfl⟩

/-- C6: at the filter boundary `level = logLevel`, with a sink installed,
the call invokes that sink exactly once, passing the level (and domain) and
the formatted message. -/
theorem log_at_boundary_invokes_once (w : Nat) (s : LogState)
    (f fe level domain : Nat) (rendered : String)
    (hlev : level = s.logLevel)
    (hf : s.logFunction = some f) (hfe : s.logFunctionEx = some fe) :
    ((wolfSSH_Log w s level rendered).2).invoked =
      some (PlainCall.mk f level (WVSNPRINTF w rendered)) ∧
    ((wolfSSH_Log_ex w s level domain rendered).2).invoked =
      some (ExCall.mk fe level domain (WVSNPRINTF w rendered)) := by
  have h : ¬ level < s.logLevel := by omega
  constructor
  · rw [log_invoked_eq, if_neg h, hf]
    rfl
  · rw [logEx_invoked_eq, if_neg h, hfe]
    rfl

/-- Witness for C6: scenario S2/S3 shape at `level = minLevel = INFO`. -/
theorem log_at_boundary_invokes_once_witness :
    WS_LOG_INFO = (LogState.mk true WS_LOG_INFO (some 3) (some 4)).logLevel ∧
    (LogState.mk true WS_LOG_INFO (some 3) (some 4)).logFunction = some 3 ∧
    (LogState.mk true WS_LOG_INFO (some 3) (some 4)).logFunctionEx = some 4 ∧
    (((wolfSSH_Log 120 (LogState.mk true WS_LOG_INFO (some 3) (some 4))
        WS_LOG_INFO "a=7").2).invoked =
      some (PlainCall.mk 3 WS_LOG_INFO (WVSNPRINTF 120 "a=7")) ∧
    ((wolfSSH_Log_ex 120 (LogState.mk true WS_LOG_INFO (some 3) (some 4))
        WS_LOG_INFO WS_LOG_DOMAIN_SFTP "a=7").2).invoked =
      some (ExCall.mk 4 WS_LOG_INFO WS_LOG_DOMAIN_SFTP (WVSNPRINTF 120 "a=7"))) :=
  ⟨by decide, by decide, by decide,
   log_at_boundary_invokes_once 120
     (LogState.mk true WS_LOG_INFO (some 3) (some 4)) 3 4
     WS_LOG_INFO WS_LOG_DOMAIN_SFTP "a=7" (by decide) (by decide) (by decide)⟩

/-- C7: with a null sink pointer the entry points drop the record and return
normally (they are total functions leaving the state intact): no sink is
invoked, so nothing is written. -/
theorem log_absent_sink_safe (w : Nat) (s : LogState) (level domain : Nat)
    (rendered : String)
    (hf : s.logFunction = none) (hfe : s.logFunctionEx = none) :
    ((wolfSSH_Log w s level rendered).2).invoked = none ∧
    ((wolfSSH_Log_ex w s level domain rendered).2).invoked = none ∧
    (wolfSSH_Log w s level rendered).1 = s ∧
    (wolfSSH_Log_ex w s level domain rendered).1 = s := by
  refine ⟨?_, ?_, rfl, rfl⟩
  · rw [log_invoked_eq, hf]
    split <;> rfl
  · rw [logEx_invoked_eq, hfe]
    split <;> rfl

/-- Witness for C7: both sinks null, a passing-level call. -/
theorem log_absent_sink_safe_witness :
    (LogState.mk true WS_LOG_INFO none none).logFunction = none ∧
    (LogState.mk true WS_LOG_INFO none none).logFunctionEx = none ∧
    (((wolfSSH_Log 120 (LogState.mk true WS_LOG_INFO none none)
        WS_LOG_ERROR "x").2).invoked = none ∧
    ((wolfSSH_Log_ex 120 (LogState.mk true WS_LOG_INFO none none)
        WS_LOG_ERROR WS_LOG_DOMAIN_GENERAL "x").2).invoked = none ∧
    (wolfSSH_Log 120 (LogState.mk true WS_LOG_INFO none none)
        WS_LOG_ERROR "x").1 = LogState.mk true WS_LOG_INFO none none ∧
    (wolfSSH_Log_ex 120 (LogState.mk true WS_LOG_INFO none none)
        WS_LOG_ERROR WS_LOG_DOMAIN_GENERAL "x").1 =
      LogState.mk true WS_LOG_INFO none none) :=
  ⟨by decide, by decide,
   log_absent_sink_safe 120 (LogState.mk true WS_LOG_INFO none none)
     WS_LOG_ERROR WS_LOG_DOMAIN_GENERAL "x" (by decide) (by decide)⟩

/-- C9: in a build without DEBUG_WOLFSSH the entry points are no-ops: for
every configuration and every argument they format nothing, invoke no sink
and leave the state untouched. -/
theorem log_noDebug_inert (s : LogState) (level domain : Nat)
    (rendered : String) :
    wolfSSH_Log_noDebug s level rendered = (s, ⟨none, none⟩) ∧
    wolfSSH_Log_ex_noDebug s level domain rendered = (s, ⟨none, none⟩) :=
  ⟨rfl, rfl⟩

/-- C10: neither entry point writes the process-wide configuration: after
any call, the enable flag, the minimum level and both sink pointers are
exactly what they were before. -/
theorem log_preserves_state (w : Nat) (s : LogState) (level domain : Nat)
    (rendered : String) :
    ((wolfSSH_Log w s level rendered).1).logEnable = s.logEnable ∧
    ((wolfSSH_Log w s level rendered).1).logLevel = s.logLevel ∧
    ((wolfSSH_Log w s level rendered).1).logFunction = s.logFunction ∧
    ((wolfSSH_Log w s level rendered).1).logFunctionEx = s.logFunctionEx ∧
    ((wolfSSH_Log_ex w s level domain rendered).1).logEnable = s.logEnable ∧
    ((wolfSSH_Log_ex w s level domain rendered).1).logLevel = s.logLevel ∧
    ((wolfSSH_Log_ex w s level domain rendered).1).logFunction =
      s.logFunction ∧
    ((wolfSSH_Log_ex w s level domain rendered).1).logFunctionEx =
      s.logFunctionEx :=
  ⟨rfl, rfl, rfl, rfl, rfl, rfl, rfl, rfl⟩

/-- Modelled from the spec: a broken-down local time as produced by
`WLOCALTIME` (the repo's localtime wrapper, outside src/).  The sinks receive
the conversion's outcome as `Option Tm`; `none` is a failed conversion. -/
structure Tm where
  year : Nat
  month : Nat
  day : Nat
  hour : Nat
  minute : Nat
  sec : Nat
deriving DecidableEq

/-- Decimal digit character for `n % 10`. -/
def digitChar (n : Nat) : Char :=
  Char.ofNat (48 + n % 10)

/-- Two-digit zero-padded decimal field, as strftime renders the in-range
month/day/hour/minute/second fields of "%F %T". -/
def pad2 (n : Nat) : String :=
  ⟨[digitChar (n / 10), digitChar n]⟩

/-- Four-digit zero-padded year field. -/
def pad4 (n : Nat) : String :=
  ⟨[digitChar (n / 1000), digitChar (n / 100), digitChar (n / 10),
    digitChar n]⟩

/-- Year rendering of "%F": four digits zero-padded, more for years beyond
9999. -/
def yearStr (n : Nat) : String :=
  if n ≤ 9999 then pad4 n else toString n

/-- Modelled from the spec: `strftime(timeStr, 24, "%F %T ", &local)` in the
default sinks renders `YYYY-MM-DD HH:MM:SS ` (trailing space). -/
def strftimeFT (t : Tm) : String :=
  yearStr t.year ++ "-" ++ pad2 t.month ++ "-" ++ pad2 t.day ++ " " ++
    pad2 t.hour ++ ":" ++ pad2 t.minute ++ ":" ++ pad2 t.sec ++ " "

/-- The `timeStr` buffer after the timestamp block of the default sinks
(log.c lines 107-120 and 167-180): initialized empty; a successful local-time
conversion renders "%F %T " into the 24-byte buffer, which holds at most 23
characters plus the terminator — on overflow the timestamp stays empty. -/
def timestampStr (tmOpt : Option Tm) : String :=
  match tmOpt with
  | none => ""
  | some t => if (strftimeFT t).length + 1 ≤ 24 then strftimeFT t else ""

/-- Extended default sink `DefaultLoggingCbEx` (log.c lines 104-128): the
single line written to stdout, `"%s[%s](%s) %s\r\n"` applied to the
timestamp, level label, domain label and message. -/
def DefaultLoggingCbEx (tmOpt : Option Tm) (level domain : Nat)
    (msgStr : String) : String :=
  timestampStr tmOpt ++ "[" ++ GetLevelStr level ++ "](" ++
    GetDomainStr domain ++ ") " ++ msgStr ++ "\r\n"

/-- Plain default sink `DefaultLoggingCb` (log.c lines 165-186): the single
line written to stdout, `"%s[%s] %s\r\n"`. -/
def DefaultLoggingCb (tmOpt : Option Tm) (level : Nat)
    (msgStr : String) : String :=
  timestampStr tmOpt ++ "[" ++ GetLevelStr level ++ "] " ++ msgStr ++ "\r\n"

/-- Helper: `yearStr` is the four-digit field for years up to 9999. -/
theorem yearStr_eq_pad4 (n : Nat) (h : n ≤ 9999) : yearStr n = pad4 n := by
  unfold yearStr
  rw [if_pos h]

/-- Helper: the rendered "%F %T " text is exactly 20 characters for years up
to 9999. -/
theorem strftimeFT_length (t : Tm) (h : t.year ≤ 9999) :
    (strftimeFT t).length = 20 := by
  unfold strftimeFT
  rw [yearStr_eq_pad4 t.year h]
  rfl

/-- Helper: a successful conversion with a four-digit year fits the 24-byte
buffer, so the timestamp is kept. -/
theorem timestampStr_some (t : Tm) (h : t.year ≤ 9999) :
    timestampStr (some t) = strftimeFT t := by
  have hl := strftimeFT_length t h
  show (if (strftimeFT t).length + 1 ≤ 24 then strftimeFT t else "") =
    strftimeFT t
  rw [if_pos (by omega)]

/-- C5: each default sink writes exactly one line: the extended one
`<ts>[<level>](<domain>) <msg>` plus CR+LF, the plain one
`<ts>[<level>] <msg>` plus CR+LF, where `<ts>` is empty (conversion failed)
or the local time as `YYYY-MM-DD HH:MM:SS ` — 20 characters — rendered into
the fixed 24-byte buffer. -/
theorem defaultSink_line_format (tmOpt : Option Tm) (level domain : Nat)
    (msg : String) (hv : ∀ t, tmOpt = some t → t.year ≤ 9999) :
    DefaultLoggingCbEx tmOpt level domain msg =
      timestampStr tmOpt ++ "[" ++ GetLevelStr level ++ "](" ++
        GetDomainStr domain ++ ") " ++ msg ++ "\r\n" ∧
    DefaultLoggingCb tmOpt level msg =
      timestampStr tmOpt ++ "[" ++ GetLevelStr level ++ "] " ++ msg ++
        "\r\n" ∧
    (timestampStr tmOpt = "" ∨
      ((timestampStr tmOpt).length = 20 ∧
        ∃ t, tmOpt = some t ∧
          timestampStr tmOpt =
            pad4 t.year ++ "-" ++ pad2 t.month ++ "-" ++ pad2 t.day ++
              " " ++ pad2 t.hour ++ ":" ++ pad2 t.minute ++ ":" ++
              pad2 t.sec ++ " ")) := by
  refine ⟨rfl, rfl, ?_⟩
  cases tmOpt with
  | none => exact Or.inl rfl
  | some t =>
      have hy : t.year ≤ 9999 := hv t rfl
      have hts : timestampStr (some t) = strftimeFT t := timestampStr_some t hy
      refine Or.inr ⟨?_, t, rfl, ?_⟩
      · rw [hts]
        exact strftimeFT_length t hy
      · rw [hts]
        unfold strftimeFT
        rw [yearStr_eq_pad4 t.year hy]

/-- Witness for C5: scenario S4, local time 2024-06-01 12:34:56, record
(ERROR, AGENT, "oops"). -/
theorem defaultSink_line_format_witness :
    DefaultLoggingCbEx (some (Tm.mk 2024 6 1 12 34 56)) WS_LOG_ERROR
        WS_LOG_DOMAIN_AGENT "oops" =
      timestampStr (some (Tm.mk 2024 6 1 12 34 56)) ++ "[" ++
        GetLevelStr WS_LOG_ERROR ++ "](" ++
        GetDomainStr WS_LOG_DOMAIN_AGENT ++ ") " ++ "oops" ++ "\r\n" ∧
    DefaultLoggingCb (some (Tm.mk 2024 6 1 12 34 56)) WS_LOG_ERROR "oops" =
      timestampStr (some (Tm.mk 2024 6 1 12 34 56)) ++ "[" ++
        GetLevelStr WS_LOG_ERROR ++ "] " ++ "oops" ++ "\r\n" ∧
    (timestampStr (some (Tm.mk 2024 6 1 12 34 56)) = "" ∨
      ((timestampStr (some (Tm.mk 2024 6 1 12 34 56))).length = 20 ∧
        ∃ t, some (Tm.mk 2024 6 1 12 34 56) = some t ∧
          timestampStr (some (Tm.mk 2024 6 1 12 34 56)) =
            pad4 t.year ++ "-" ++ pad2 t.month ++ "-" ++ pad2 t.day ++
              " " ++ pad2 t.hour ++ ":" ++ pad2 t.minute ++ ":" ++
              pad2 t.sec ++ " ")) :=
  defaultSink_line_format (some (Tm.mk 2024 6 1 12 34 56)) WS_LOG_ERROR
    WS_LOG_DOMAIN_AGENT "oops"
    (fun t h => by injection h with h2; subst h2; decide)

/-- C8 counterexample: the severity-label helper does not map every
recognized level to its own name: at WARN it returns "WARNING", not
"WARN". -/
theorem getOldLevelStr_warn_counterexample :
    GetOldLevelStr WS_LOG_WARN = "WARNING" ∧
    GetOldLevelStr WS_LOG_WARN ≠ "WARN" := by
  constructor
  · rfl
  · decide

/-- C8 (amended): the severity-label helper returns a fixed uppercase label
per recognized level — INFO, WARNING (not "WARN"), ERROR, DEBUG, USER, SFTP,
SCP, AGENT — and "UNKNOWN" for every unrecognized value. -/
theorem getOldLevelStr_labels (n : Nat)
    (hn : n ≠ WS_LOG_INFO ∧ n ≠ WS_LOG_WARN ∧ n ≠ WS_LOG_ERROR ∧
      n ≠ WS_LOG_DEBUG ∧ n ≠ WS_LOG_USER ∧ n ≠ WS_LOG_SFTP ∧
      n ≠ WS_LOG_SCP ∧ n ≠ WS_LOG_AGENT) :
    GetOldLevelStr WS_LOG_INFO = "INFO" ∧
    GetOldLevelStr WS_LOG_WARN = "WARNING" ∧
    GetOldLevelStr WS_LOG_ERROR = "ERROR" ∧
    GetOldLevelStr WS_LOG_DEBUG = "DEBUG" ∧
    GetOldLevelStr WS_LOG_USER = "USER" ∧
    GetOldLevelStr WS_LOG_SFTP = "SFTP" ∧
    GetOldLevelStr WS_LOG_SCP = "SCP" ∧
    GetOldLevelStr WS_LOG_AGENT = "AGENT" ∧
    GetOldLevelStr n = "UNKNOWN" := by
  obtain ⟨h1, h2, h3, h4, h5, h6, h7, h8⟩ := hn
  refine ⟨by decide, by decide, by decide, by decide, by decide, by decide,
    by decide, by decide, ?_⟩
  unfold GetOldLevelStr
  rw [if_neg h1, if_neg h2, if_neg h3, if_neg h4, if_neg h5, if_neg h6,
    if_neg h7, if_neg h8]

/-- Witness for the amended C8 at the unrecognized value 42. -/
theorem getOldLevelStr_labels_witness :
    ((42 : Nat) ≠ WS_LOG_INFO ∧ (42 : Nat) ≠ WS_LOG_WARN ∧
      (42 : Nat) ≠ WS_LOG_ERROR ∧ (42 : Nat) ≠ WS_LOG_DEBUG ∧
      (42 : Nat) ≠ WS_LOG_USER ∧ (42 : Nat) ≠ WS_LOG_SFTP ∧
      (42 : Nat) ≠ WS_LOG_SCP ∧ (42 : Nat) ≠ WS_LOG_AGENT) ∧
    (GetOldLevelStr WS_LOG_INFO = "INFO" ∧
    GetOldLevelStr WS_LOG_WARN = "WARNING" ∧
    GetOldLevelStr WS_LOG_ERROR = "ERROR" ∧
    GetOldLevelStr WS_LOG_DEBUG = "DEBUG" ∧
    GetOldLevelStr WS_LOG_USER = "USER" ∧
    GetOldLevelStr WS_LOG_SFTP = "SFTP" ∧
    GetOldLevelStr WS_LOG_SCP = "SCP" ∧
    GetOldLevelStr WS_LOG_AGENT = "AGENT" ∧
    GetOldLevelStr 42 = "UNKNOWN") :=
  ⟨by decide, getOldLevelStr_labels 42 (by decide)⟩
